import Mathlib

/-!
Shallow embedding of the Verdant survey runner.

The definitions below are translated from the TypeScript sources:
* the data model from `packages/survey-engine/src/types/index.ts`,
* the extractor helpers `isValidSurveySurface` and `stateFingerprint`, and the
  pure input-type derivation inside `extractQuestionState`
  (`extractor/question-state.ts`),
* the deterministic strategy engine `seededIndex`, `pickByMode`,
  `chooseTextByRuleset`, `deterministicSelection` (`strategy.ts`),
* the per-step control loop of `runSurvey`
  (`packages/survey-engine/src/run-survey.ts`), with the browser and the LLM
  treated as an oracle supplying each step's observations.

JavaScript strings are modelled as Lean `String` (`charCodeAt` as the scalar
value of the character, faithful for the Basic Multilingual Plane), unsigned
32-bit wrap-around (`>>> 0`) as `% 4294967296`, and JavaScript `Record`
iteration order (`Object.entries`) as an association list in insertion order.
-/

namespace Verdant

/-! ### Data model (`types/index.ts`) -/

inductive InputType
  | single_select
  | multi_select
  | text
  | yes_no
  | unknown
deriving DecidableEq

structure SurveyOption where
  label : String
  selected : Bool
deriving DecidableEq

structure QuestionState where
  questionText : String
  supportText : List String
  inputType : InputType
  options : List SurveyOption
  filledValue : String
  navigationButtons : List String
  progress : Option String
  visibleInputCount : Nat
  url : String
deriving DecidableEq

inductive AnswerStrategy
  | first
  | last
  | random
  | ruleset
deriving DecidableEq

/-- The TS literal union used by `singleSelect` and `pickByMode`. -/
inductive PickMode
  | first
  | last
  | random
deriving DecidableEq

inductive MultiSelectMode
  | first_n
  | all
  | random_n
deriving DecidableEq

structure MultiSelectRule where
  mode : MultiSelectMode
  n : Option Nat
deriving DecidableEq

structure TextRule where
  default : Option String
  byKeyword : Option (List (String × String))
deriving DecidableEq

structure RulesetConfig where
  singleSelect : Option PickMode
  multiSelect : Option MultiSelectRule
  text : Option TextRule
deriving DecidableEq

inductive DecisionAction
  | select_single
  | select_multi
  | type_text
  | click_next
  | click_submit
  | cannot_proceed
deriving DecidableEq

structure Selection where
  label : String
deriving DecidableEq

/-- The decision contract (`packages/llm`, `decisionSchema`).  The
floating-point `confidence`, the free-text `reason` and the screenshot flag do
not influence the control flow modelled here and are left out. -/
structure Decision where
  action : DecisionAction
  selections : List Selection
  text : String
  assertions : List String
deriving DecidableEq

inductive RunStatus
  | success
  | blocked
  | error
  | running
deriving DecidableEq

/-! ### String helpers

`strContains` is JavaScript `String.prototype.includes`;
`wordMatch` is the regex test `\b word \b` (both operands already
lower-cased by the callers, as in the source). -/

def listContainsSub (needle : List Char) : List Char → Bool
  | [] => needle.isEmpty
  | c :: t => needle.isPrefixOf (c :: t) || listContainsSub needle t

def strContains (hay needle : String) : Bool :=
  listContainsSub needle.data hay.data

/-- JavaScript regex `\w`: ASCII letters, digits and underscore. -/
def isWordChar (c : Char) : Bool :=
  c.isAlphanum || c = '_'

/-- `toLowerCase`, on the ASCII range the sources use. -/
def charLower (c : Char) : Char :=
  if c.isUpper then Char.ofNat (c.toNat + 32) else c

def lowerStr (s : String) : String :=
  String.mk (s.data.map charLower)

/-- Does `word` occur at the head of `hay`, with a word boundary on each
side?  `prev` is the character just before this position, if any. -/
def wordMatchHere (word : List Char) (prev : Option Char) (hay : List Char) : Bool :=
  word.isPrefixOf hay
    && (match prev with
        | none => true
        | some c => !isWordChar c)
    && (match hay.drop word.length with
        | [] => true
        | c :: _ => !isWordChar c)

def wordMatchAux (word : List Char) : Option Char → List Char → Bool
  | prev, [] => wordMatchHere word prev []
  | prev, c :: t => wordMatchHere word prev (c :: t) || wordMatchAux word (some c) t

def wordMatch (hay word : String) : Bool :=
  wordMatchAux word.data none hay.data

/-! ### Extractor (`extractor/question-state.ts`) -/

/-- `isValidSurveySurface`, lines 313–319. -/
def isValidSurveySurface (state : QuestionState) : Bool :=
  if state.visibleInputCount > 0 then true
  else state.navigationButtons.length > 0

/-- `stateFingerprint`, lines 321–324. -/
def stateFingerprint (state : QuestionState) : String :=
  state.questionText ++ "|" ++ (state.progress.getD "") ++ "|"
    ++ String.intercalate ","
        (state.options.map (fun o =>
          o.label ++ ":" ++ (if o.selected then "1" else "0")))
    ++ "|" ++ state.filledValue

/-- The pure `inputType` derivation inside `extractQuestionState`
(lines 239–253): sequential reassignment of `inputType`, starting from
`unknown`, followed by the yes/no special case over the deduplicated
option-map keys. -/
def deriveInputType (radioCount checkboxCount visibleTextInputCount : Nat)
    (optionKeys : List String) : InputType :=
  let t1 : InputType := InputType.unknown
  let t2 := if radioCount > 0 ∧ checkboxCount = 0 then InputType.single_select else t1
  let t3 := if checkboxCount > 0 then InputType.multi_select else t2
  let t4 := if visibleTextInputCount > 0 then InputType.text else t3
  let optionLabels := optionKeys.map lowerStr
  if optionLabels.length = 2 ∧ optionLabels.contains "yes" ∧ optionLabels.contains "no" then
    InputType.yes_no
  else t4

/-! ### Strategy engine (`strategy.ts`) -/

/-- `seededIndex`: polynomial rolling hash with multiplier 31 over the
UTF-16 code units, wrapped to 32 bits by `>>> 0`, reduced modulo `length`. -/
def seededIndex (seed : String) (length : Nat) : Nat :=
  let hash := seed.data.foldl (fun hash c => (hash * 31 + c.toNat) % 4294967296) 0
  if length = 0 then 0 else hash % length

def pickByMode (labels : List String) (mode : PickMode) (seed : String) : String :=
  if labels.length = 0 then ""
  else match mode with
    | PickMode.first => labels.headD ""
    | PickMode.last => labels.getLastD ""
    | PickMode.random => labels.getD (seededIndex seed labels.length) ""

/-- `chooseTextByRuleset` (lines 396–407). -/
def chooseTextByRuleset (state : QuestionState) (ruleset : Option RulesetConfig)
    (fallback : String := "AUTO_TEST_RESPONSE") : String :=
  let defaultValue := (((ruleset.bind RulesetConfig.text).bind TextRule.default).getD fallback)
  let byKeyword := ((ruleset.bind RulesetConfig.text).bind TextRule.byKeyword).getD []
  let haystack :=
    lowerStr (state.questionText ++ " " ++ String.intercalate " " state.supportText)
  match byKeyword.find? (fun kv => strContains haystack (lowerStr kv.1)) with
  | some kv => kv.2
  | none => defaultValue

/-- Seed string `runId:questionText:resultLength` used by the `random_n`
loop of `deterministicSelection`. -/
def randomNSeed (runId questionText : String) (resultLength : Nat) : String :=
  runId ++ ":" ++ questionText ++ ":" ++ toString resultLength

/-- The `random_n` while-loop of `deterministicSelection` (lines 440–449).
Each iteration either stops (pool empty or `n` results collected) or removes
one element from the pool, so running it with `fuel` at least the initial pool
length reproduces the loop exactly:

    while (chosen.length > 0 && result.length < n) {
      const idx = seededIndex(`${runId}:${questionText}:${result.length}`, chosen.length);
      const [label] = chosen.splice(idx, 1);
      if (label) result.push(label);
    }
-/
def randomNLoop (runId questionText : String) (n : Nat) :
    Nat → List String → List String → List String
  | 0, _, result => result
  | fuel + 1, chosen, result =>
    if 0 < chosen.length ∧ result.length < n then
      if chosen.getD (seededIndex (randomNSeed runId questionText result.length) chosen.length) "" ≠ "" then
        randomNLoop runId questionText n fuel
          (chosen.eraseIdx (seededIndex (randomNSeed runId questionText result.length) chosen.length))
          (result ++ [chosen.getD (seededIndex (randomNSeed runId questionText result.length) chosen.length) ""])
      else
        randomNLoop runId questionText n fuel
          (chosen.eraseIdx (seededIndex (randomNSeed runId questionText result.length) chosen.length))
          result
    else result

/-- `deterministicSelection` (lines 409–457). -/
def deterministicSelection (state : QuestionState) (strategy : AnswerStrategy)
    (ruleset : Option RulesetConfig) (runId : String) : List String :=
  let labels := state.options.map (·.label)
  if labels.length = 0 then []
  else if strategy ≠ AnswerStrategy.ruleset then
    let mode : PickMode :=
      if strategy = AnswerStrategy.first then PickMode.first
      else if strategy = AnswerStrategy.last then PickMode.last
      else PickMode.random
    if state.inputType = InputType.multi_select then
      let picked := pickByMode labels mode (runId ++ ":" ++ state.questionText)
      if picked ≠ "" then [picked] else []
    else
      ([pickByMode labels mode (runId ++ ":" ++ state.questionText)]).filter (fun l => l ≠ "")
  else if state.inputType = InputType.multi_select then
    let mode := ((ruleset.bind RulesetConfig.multiSelect).map MultiSelectRule.mode).getD MultiSelectMode.first_n
    let n := Nat.max 1 (((ruleset.bind RulesetConfig.multiSelect).bind MultiSelectRule.n).getD 2)
    if mode = MultiSelectMode.all then labels
    else if mode = MultiSelectMode.random_n then
      randomNLoop runId state.questionText n labels.length labels []
    else labels.take n
  else
    let singleMode := (ruleset.bind RulesetConfig.singleSelect).getD PickMode.first
    ([pickByMode labels singleMode (runId ++ ":" ++ state.questionText)]).filter (fun l => l ≠ "")

/-! ### Step engine (`run-survey.ts`)

The per-run loop of `runSurvey` (lines 240–475) is embedded with the browser
and the decision source abstracted into a per-step oracle `StepCtx`: what
`extractQuestionState` returned at the top of the step, whether the
URL-drift check of lines 274–295 fired (host differs from the original and
is not a known survey provider), the `Decision` used for the step (from the
LLM or the fallback), and the outcome of `executeDecision`.  Screenshots,
event emission and the report file are I/O-only and are not modelled. -/

/-- `isCompletionLikely` (lines 116–134): substring alternation, then the
word-boundary test `\b(completed|finished)\b`. -/
def isCompletionLikely (state : QuestionState) : Bool :=
  let text :=
    lowerStr (state.questionText ++ " " ++ String.intercalate " " state.supportText)
  if strContains text "thank you" || strContains text "thanks"
      || strContains text "submitted" || strContains text "successfully"
      || strContains text "start again" then
    true
  else if wordMatch text "completed" || wordMatch text "finished" then
    true
  else
    false

/-- Result of `executeDecision` (`executor/actions.ts`), as consumed by the
loop. -/
structure ExecOutcome where
  actionSucceeded : Bool
  progressed : Bool
  afterState : QuestionState
  assertionsPassed : List String
  assertionsFailed : List String
deriving DecidableEq

/-- One step's observations, supplied by the environment. -/
structure StepCtx where
  state : QuestionState
  externalHostExit : Bool
  decision : Decision
  exec : ExecOutcome
deriving DecidableEq

/-- `StepResult` (`types/index.ts`), without the artifact paths. -/
structure StepResult where
  step : Nat
  state : QuestionState
  decision : Decision
  actionSucceeded : Bool
  progressed : Bool
  assertionsPassed : List String
  assertionsFailed : List String
deriving DecidableEq

structure LoopOutcome where
  status : RunStatus
  message : String
  steps : List StepResult
deriving DecidableEq

/-- Lines 397–409: a fingerprint change or the executor's progress signal
counts as progress, overridden to `false` when any assertion failed. -/
def markProgressed (execProgressed : Bool) (beforeFingerprint afterFingerprint : String)
    (assertionsFailed : List String) : Bool :=
  let progressed := execProgressed || afterFingerprint ≠ beforeFingerprint
  if assertionsFailed.length > 0 then false else progressed

/-- The body of `for (let step = 1; step <= maxSteps; step += 1)`
(lines 242–475), checks in source order:
completion text on the current state (line 267), external-host exit for
steps after the first (lines 282–291), `completeSurvey=false` early stop
(line 352), `cannot_proceed` (line 358), execution and progress marking
(lines 382–415), submit-then-stop (line 448), completion text on the new
state (line 454), the stagnation guard (line 460) and the `maxSteps`
ceiling (line 471).  `fuel` is the number of remaining loop iterations;
`runSurveySteps` below starts it at `maxSteps`, matching the `for` bound. -/
def stepLoop (env : Nat → StepCtx) (completeSurvey : Bool) (maxSteps : Nat) :
    Nat → Nat → Nat → List StepResult → LoopOutcome
  | 0, _, _, acc =>
    { status := RunStatus.success, message := "Survey run completed.", steps := acc.reverse }
  | fuel + 1, step, stagnantSteps, acc =>
    let ctx := env step
    if isCompletionLikely ctx.state then
      { status := RunStatus.success
        message := "Survey appears complete (detected completion text)."
        steps := acc.reverse }
    else if ctx.externalHostExit = true ∧ 1 < step then
      { status := RunStatus.success
        message := "Survey exited to external domain."
        steps := acc.reverse }
    else if completeSurvey = false ∧ 1 < step then
      { status := RunStatus.success
        message := "Stopped before completion because completeSurvey=false."
        steps := acc.reverse }
    else if ctx.decision.action = DecisionAction.cannot_proceed then
      { status := RunStatus.blocked
        message := "LLM reported cannot_proceed at step " ++ toString step ++ "."
        steps := (({ step := step, state := ctx.state, decision := ctx.decision,
                     actionSucceeded := false, progressed := false,
                     assertionsPassed := [],
                     assertionsFailed := ["Cannot proceed."] } : StepResult) :: acc).reverse }
    else
      let progressed := markProgressed ctx.exec.progressed (stateFingerprint ctx.state)
        (stateFingerprint ctx.exec.afterState) ctx.exec.assertionsFailed
      let stagnantSteps' := if progressed = false then stagnantSteps + 1 else 0
      let acc' := ({ step := step, state := ctx.state, decision := ctx.decision,
                     actionSucceeded := ctx.exec.actionSucceeded, progressed := progressed,
                     assertionsPassed := ctx.exec.assertionsPassed,
                     assertionsFailed := ctx.exec.assertionsFailed } : StepResult) :: acc
      if ctx.decision.action = DecisionAction.click_submit
          ∧ (isCompletionLikely ctx.exec.afterState = true ∨ progressed = false) then
        { status := RunStatus.success
          message := "Survey submission step executed."
          steps := acc'.reverse }
      else if isCompletionLikely ctx.exec.afterState then
        { status := RunStatus.success
          message := "Survey appears complete."
          steps := acc'.reverse }
      else if 2 ≤ stagnantSteps' then
        { status := RunStatus.blocked
          message := "Runner cannot progress after repeated attempts."
          steps := acc'.reverse }
      else if step = maxSteps then
        { status := RunStatus.blocked
          message := "Stopped after reaching maxSteps (" ++ toString maxSteps ++ ")."
          steps := acc'.reverse }
      else
        stepLoop env completeSurvey maxSteps fuel (step + 1) stagnantSteps' acc'

/-- The iterating phase of `runSurvey`, from a valid initial surface:
`status` starts at `success` / "Survey run completed." (lines 190–191) and
the loop runs steps `1 .. maxSteps`. -/
def runSurveySteps (env : Nat → StepCtx) (completeSurvey : Bool) (maxSteps : Nat) :
    LoopOutcome :=
  stepLoop env completeSurvey maxSteps maxSteps 1 0 []

/-! ### The specification's input-type precedence (for the refinement claim C7) -/

/-- Input-type precedence exactly as the specification words it: the yes/no
special case is applied last and overrides everything; text-input presence
dominates checkbox and radio presence; checkbox presence dominates radio
presence; radio presence alone gives `single_select`. -/
def specInputType (radioCount checkboxCount visibleTextInputCount : Nat)
    (optionKeys : List String) : InputType :=
  let lowered := optionKeys.map lowerStr
  if lowered.length = 2 ∧ lowered.contains "yes" ∧ lowered.contains "no" then
    InputType.yes_no
  else if 0 < visibleTextInputCount then InputType.text
  else if 0 < checkboxCount then InputType.multi_select
  else if 0 < radioCount then InputType.single_select
  else InputType.unknown

/-! ## Theorems -/

/-- C3: the step is marked progressed iff the executor reported progress or
the state fingerprint changed, unless the execution reported at least one
failed assertion, in which case the step is marked not progressed regardless
of fingerprint movement or the executor's progress signal
(`markProgressed` is the marking used by `stepLoop`). -/
theorem markProgressed_iff (execProgressed : Bool)
    (beforeFingerprint afterFingerprint : String) (assertionsFailed : List String) :
    markProgressed execProgressed beforeFingerprint afterFingerprint assertionsFailed = true ↔
      (assertionsFailed = []
        ∧ (execProgressed = true ∨ afterFingerprint ≠ beforeFingerprint)) := by
  rcases assertionsFailed with _ | ⟨a, t⟩
  · simp [markProgressed]
  · simp [markProgressed]

/-- C5: two states with equal question text, progress, ordered
`(label, selected)` pairs and filled value have equal fingerprints, whatever
their other fields are. -/
theorem stateFingerprint_stable (s1 s2 : QuestionState)
    (hq : s1.questionText = s2.questionText)
    (hp : s1.progress = s2.progress)
    (ho : s1.options.map (fun o => (o.label, o.selected))
        = s2.options.map (fun o => (o.label, o.selected)))
    (hf : s1.filledValue = s2.filledValue) :
    stateFingerprint s1 = stateFingerprint s2 := by
  unfold stateFingerprint
  rw [hq, hp, hf]
  have hrender :
      s1.options.map (fun o => o.label ++ ":" ++ (if o.selected then "1" else "0"))
        = s2.options.map (fun o => o.label ++ ":" ++ (if o.selected then "1" else "0")) := by
    have h1 := congrArg
      (List.map (fun p : String × Bool => p.1 ++ ":" ++ (if p.2 then "1" else "0"))) ho
    simpa [List.map_map, Function.comp] using h1
  rw [hrender]

def c5StateA : QuestionState :=
  { questionText := "How satisfied are you?", supportText := ["Pick one"]
    inputType := InputType.single_select
    options := [{ label := "Good", selected := true }, { label := "Bad", selected := false }]
    filledValue := "", navigationButtons := ["Next"], progress := some "1 of 3"
    visibleInputCount := 2, url := "https://a.example/s" }

def c5StateB : QuestionState :=
  { questionText := "How satisfied are you?", supportText := []
    inputType := InputType.unknown
    options := [{ label := "Good", selected := true }, { label := "Bad", selected := false }]
    filledValue := "", navigationButtons := [], progress := some "1 of 3"
    visibleInputCount := 0, url := "https://b.example/t" }

theorem stateFingerprint_stable_witness :
    c5StateA.supportText ≠ c5StateB.supportText
      ∧ c5StateA.inputType ≠ c5StateB.inputType
      ∧ c5StateA.navigationButtons ≠ c5StateB.navigationButtons
      ∧ c5StateA.visibleInputCount ≠ c5StateB.visibleInputCount
      ∧ c5StateA.url ≠ c5StateB.url
      ∧ stateFingerprint c5StateA = stateFingerprint c5StateB :=
  ⟨by decide, by decide, by decide, by decide, by decide,
    stateFingerprint_stable c5StateA c5StateB rfl rfl rfl rfl⟩

/-- C6: a `QuestionState` is a valid survey surface iff it has a positive
visible-input count or a non-empty navigation-button list. -/
theorem isValidSurveySurface_iff (s : QuestionState) :
    isValidSurveySurface s = true ↔
      (0 < s.visibleInputCount ∨ s.navigationButtons ≠ []) := by
  unfold isValidSurveySurface
  by_cases h : 0 < s.visibleInputCount
  · simp [h]
  · simp [h, List.length_pos]

/-- C7: the extractor's `inputType` derivation equals the precedence chain
the specification states: checkbox dominates radio, text dominates both,
and the yes/no special case (exactly two deduplicated options labelled
"yes"/"no" case-insensitively) overrides all of them. -/
theorem deriveInputType_precedence (radioCount checkboxCount visibleTextInputCount : Nat)
    (optionKeys : List String) :
    deriveInputType radioCount checkboxCount visibleTextInputCount optionKeys
      = specInputType radioCount checkboxCount visibleTextInputCount optionKeys := by
  simp only [deriveInputType, specInputType]
  split_ifs <;> first | rfl | omega

theorem seededIndex_lt (seed : String) (n : Nat) (h : 0 < n) : seededIndex seed n < n := by
  unfold seededIndex
  rw [if_neg (Nat.pos_iff_ne_zero.mp h)]
  exact Nat.mod_lt _ h

theorem pickByMode_mem (labels : List String) (mode : PickMode) (seed : String)
    (h : labels ≠ []) : pickByMode labels mode seed ∈ labels := by
  unfold pickByMode
  have hlen : ¬ labels.length = 0 := by simpa [List.length_eq_zero] using h
  rw [if_neg hlen]
  cases mode with
  | first =>
    cases labels with
    | nil => exact absurd rfl h
    | cons a t => simp
  | last =>
    cases labels with
    | nil => exact absurd rfl h
    | cons a t =>
      rw [List.getLastD_cons]
      exact List.getLastD_mem_cons t a
  | random =>
    have hidx : seededIndex seed labels.length < labels.length :=
      seededIndex_lt _ _ (List.length_pos.mpr h)
    rw [List.getD_eq_getElem?_getD, List.getElem?_eq_getElem hidx]
    exact List.getElem_mem hidx

theorem filter_singleton_ne (p : String) :
    List.filter (fun l => !decide (l = "")) [p] = if p = "" then ([] : List String) else [p] := by
  by_cases hp : p = "" <;> simp [hp]

theorem pickByMode_random_eq (labels : List String) (seed : String)
    (h : ¬ labels.length = 0) :
    pickByMode labels PickMode.random seed
      = labels.getD
          ((seed.data.foldl (fun hash c => (hash * 31 + c.toNat) % 4294967296) 0)
            % labels.length) "" := by
  unfold pickByMode seededIndex
  rw [if_neg h, if_neg h]

/-- C4: `deterministicSelection` is a pure function of the run id, the
question text, the ordered option labels, the input type and the
strategy/ruleset — two states agreeing on those fields select identically —
and under the `random` strategy the pick is the label at index
`polynomial-rolling-hash(runId ++ ":" ++ questionText) mod optionCount`. -/
theorem deterministicSelection_deterministic (s1 s2 : QuestionState)
    (strategy : AnswerStrategy) (ruleset : Option RulesetConfig) (runId : String)
    (hq : s1.questionText = s2.questionText)
    (hl : s1.options.map (·.label) = s2.options.map (·.label))
    (ht : s1.inputType = s2.inputType) :
    deterministicSelection s1 strategy ruleset runId
        = deterministicSelection s2 strategy ruleset runId
      ∧ (s1.options ≠ [] →
          deterministicSelection s1 AnswerStrategy.random ruleset runId
            = [(s1.options.map (·.label)).getD
                 ((((runId ++ ":" ++ s1.questionText)).data.foldl
                     (fun hash c => (hash * 31 + c.toNat) % 4294967296) 0)
                   % (s1.options.map (·.label)).length) ""].filter (fun l => l ≠ "")) := by
  constructor
  · simp only [deterministicSelection, hq, hl, ht]
  · intro hne
    have hlen : ¬ (s1.options.map (·.label)).length = 0 := by
      simpa [List.length_eq_zero, List.map_eq_nil_iff] using hne
    by_cases hmt : s1.inputType = InputType.multi_select <;>
      simp [deterministicSelection, hmt, hne, if_neg hlen,
        pickByMode_random_eq _ _ hlen, filter_singleton_ne]

def c4StateA : QuestionState :=
  { questionText := "Pick one", supportText := ["first support"]
    inputType := InputType.single_select
    options := [{ label := "A", selected := false }, { label := "B", selected := true },
                { label := "C", selected := false }]
    filledValue := "", navigationButtons := ["Next"], progress := none
    visibleInputCount := 3, url := "https://a.example" }

def c4StateB : QuestionState :=
  { questionText := "Pick one", supportText := []
    inputType := InputType.single_select
    options := [{ label := "A", selected := true }, { label := "B", selected := false },
                { label := "C", selected := true }]
    filledValue := "x", navigationButtons := [], progress := some "20%"
    visibleInputCount := 9, url := "https://b.example" }

theorem deterministicSelection_deterministic_witness :
    c4StateA.options ≠ c4StateB.options
      ∧ deterministicSelection c4StateA AnswerStrategy.random none "run-1"
          = deterministicSelection c4StateB AnswerStrategy.random none "run-1"
      ∧ deterministicSelection c4StateA AnswerStrategy.random none "run-1" = ["C"] :=
  ⟨by decide,
    (deterministicSelection_deterministic c4StateA c4StateB AnswerStrategy.random none "run-1"
      rfl rfl rfl).1,
    by decide⟩

def c2State : QuestionState :=
  { questionText := "Q", supportText := [], inputType := InputType.multi_select
    options := ["A", "B", "C", "D", "E", "F", "G", "H", "I", "J", "K"].map
      (fun l => { label := l, selected := false })
    filledValue := "", navigationButtons := [], progress := none
    visibleInputCount := 11, url := "https://a.example" }

def c2Ruleset : RulesetConfig :=
  { singleSelect := none
    multiSelect := some { mode := MultiSelectMode.first_n, n := some 11 }
    text := none }

/-- C2 counterexample: `deterministicSelection` applies no upper clamp at 10;
with `multiSelect.n = 11` and 11 options, `first_n` selects 11 labels. -/
theorem deterministicSelection_no_upper_clamp :
    c2State.inputType = InputType.multi_select
      ∧ c2Ruleset.multiSelect = some { mode := MultiSelectMode.first_n, n := some 11 }
      ∧ 10 < (deterministicSelection c2State AnswerStrategy.ruleset (some c2Ruleset) "r").length :=
  ⟨rfl, rfl, by decide⟩

/-- C2 (amended): the effective multi-select count is
`max 1 (multiSelect.n, default 2)` — clamped below at 1 but not clamped above
at 10 — and `first_n` selects exactly `min` of that count and the number of
options, which can exceed 10. -/
theorem deterministicSelection_first_n_length (s : QuestionState) (rs : RulesetConfig)
    (cfg : MultiSelectRule) (runId : String)
    (hmulti : s.inputType = InputType.multi_select)
    (hcfg : rs.multiSelect = some cfg)
    (hmode : cfg.mode = MultiSelectMode.first_n) :
    (deterministicSelection s AnswerStrategy.ruleset (some rs) runId).length
      = min (Nat.max 1 (cfg.n.getD 2)) s.options.length := by
  by_cases h0 : (s.options.map (·.label)).length = 0
  · have hopt : s.options.length = 0 := by simpa using h0
    simp [deterministicSelection, h0, hopt]
  · have hne : s.options ≠ [] := by
      intro hnil
      exact h0 (by simp [hnil])
    simp [deterministicSelection, h0, hne, hmulti, hcfg, hmode, List.length_take]

theorem deterministicSelection_first_n_length_witness :
    c2State.inputType = InputType.multi_select
      ∧ c2Ruleset.multiSelect = some { mode := MultiSelectMode.first_n, n := some 11 }
      ∧ (deterministicSelection c2State AnswerStrategy.ruleset (some c2Ruleset) "r").length
          = min (Nat.max 1 ((some 11 : Option Nat).getD 2)) c2State.options.length :=
  ⟨rfl, rfl,
    deterministicSelection_first_n_length c2State c2Ruleset
      { mode := MultiSelectMode.first_n, n := some 11 } "r" rfl rfl rfl⟩

def c10State : QuestionState :=
  { questionText := "Q", supportText := [], inputType := InputType.multi_select
    options := [{ label := "", selected := false }]
    filledValue := "", navigationButtons := [], progress := none
    visibleInputCount := 1, url := "https://a.example" }

/-- C10 counterexample: a multi-select state with a (single) empty-string
option label makes the non-ruleset path select zero labels, not exactly
one. -/
theorem deterministicSelection_empty_label_counterexample :
    c10State.inputType = InputType.multi_select
      ∧ c10State.options ≠ []
      ∧ deterministicSelection c10State AnswerStrategy.first none "r" = [] :=
  ⟨rfl, by decide, by decide⟩

theorem ite_pick_length_le (pick : String) :
    (if pick ≠ "" then [pick] else ([] : List String)).length ≤ 1 := by
  split <;> simp

/-- C10 (amended): under the strategies `first`, `last` and `random` (that
is, any strategy other than `ruleset`) `deterministicSelection` never
returns more than one label, and returns exactly one on a `multi_select`
state whose option list is non-empty with only non-empty labels. -/
theorem deterministicSelection_nonruleset_single (s : QuestionState)
    (strategy : AnswerStrategy) (ruleset : Option RulesetConfig) (runId : String)
    (hst : strategy ≠ AnswerStrategy.ruleset) :
    (deterministicSelection s strategy ruleset runId).length ≤ 1
      ∧ (s.inputType = InputType.multi_select → s.options ≠ [] →
          (∀ o ∈ s.options, o.label ≠ "") →
          (deterministicSelection s strategy ruleset runId).length = 1) := by
  by_cases h0 : (s.options.map (·.label)).length = 0
  · refine ⟨?_, ?_⟩
    · simp [deterministicSelection, h0]
    · intro _ hne _
      refine absurd ?_ hne
      simpa [List.length_eq_zero, List.map_eq_nil_iff] using h0
  · have hne' : s.options.map (·.label) ≠ [] :=
      fun hnil => h0 (by simp [hnil])
    by_cases hmt : s.inputType = InputType.multi_select
    · have hmem : pickByMode (s.options.map (·.label))
          (if strategy = AnswerStrategy.first then PickMode.first
           else if strategy = AnswerStrategy.last then PickMode.last else PickMode.random)
          (runId ++ ":" ++ s.questionText) ∈ s.options.map (·.label) :=
        pickByMode_mem _ _ _ hne'
      refine ⟨?_, ?_⟩
      · simp only [deterministicSelection]
        rw [if_neg h0, if_pos hst, if_pos hmt]
        exact ite_pick_length_le _
      · intro _ _ hlab
        obtain ⟨o, ho, holabel⟩ := List.mem_map.mp hmem
        have hpick : pickByMode (s.options.map (·.label))
            (if strategy = AnswerStrategy.first then PickMode.first
             else if strategy = AnswerStrategy.last then PickMode.last else PickMode.random)
            (runId ++ ":" ++ s.questionText) ≠ "" := holabel ▸ hlab o ho
        simp only [deterministicSelection]
        rw [if_neg h0, if_pos hst, if_pos hmt, if_pos hpick]
        rfl
    · refine ⟨?_, ?_⟩
      · simp only [deterministicSelection]
        rw [if_neg h0, if_pos hst, if_neg hmt]
        refine le_trans (List.length_filter_le _ _) ?_
        simp
      · intro hmt2 _ _
        exact absurd hmt2 hmt

def c10WitnessState : QuestionState :=
  { questionText := "Pick all that apply", supportText := [], inputType := InputType.multi_select
    options := [{ label := "A", selected := false }, { label := "B", selected := false }]
    filledValue := "", navigationButtons := [], progress := none
    visibleInputCount := 2, url := "https://a.example" }

theorem deterministicSelection_nonruleset_single_witness :
    AnswerStrategy.last ≠ AnswerStrategy.ruleset
      ∧ (deterministicSelection c10WitnessState AnswerStrategy.last none "r").length ≤ 1
      ∧ (deterministicSelection c10WitnessState AnswerStrategy.last none "r").length = 1 :=
  ⟨by decide,
    (deterministicSelection_nonruleset_single c10WitnessState AnswerStrategy.last none "r"
      (by decide)).1,
    (deterministicSelection_nonruleset_single c10WitnessState AnswerStrategy.last none "r"
      (by decide)).2 rfl (by decide) (by decide)⟩

def c9State : QuestionState :=
  { questionText := "What is it?", supportText := ["Your email please"]
    inputType := InputType.text, options := [], filledValue := ""
    navigationButtons := [], progress := none, visibleInputCount := 1
    url := "https://a.example" }

def c9Ruleset : RulesetConfig :=
  { singleSelect := none, multiSelect := none
    text := some { default := some "N/A", byKeyword := some [("email", "a@b.com")] } }

/-- C9 counterexample: the question text itself contains no keyword, yet the
keyword occurs in the support text, so the mapped value is returned instead
of `text.default`. -/
theorem chooseTextByRuleset_counterexample :
    strContains (lowerStr c9State.questionText) (lowerStr "email") = false
      ∧ chooseTextByRuleset c9State (some c9Ruleset) = "a@b.com"
      ∧ chooseTextByRuleset c9State (some c9Ruleset) ≠ "N/A" :=
  ⟨by decide, by decide, by decide⟩

theorem find?_of_prefix_misses {α : Type} (p : α → Bool) (pre post : List α) (kv : α)
    (hkv : p kv = true) (hpre : ∀ x ∈ pre, p x = false) :
    List.find? p (pre ++ kv :: post) = some kv := by
  induction pre with
  | nil => simp [hkv]
  | cons a t ih =>
    have ha : p a = false := hpre a (List.mem_cons_self a t)
    simp only [List.cons_append, List.find?_cons, ha]
    exact ih (fun x hx => hpre x (List.mem_cons_of_mem a hx))

/-- C9 (amended): for a text question, `chooseTextByRuleset` returns
`text.default` (falling back to "AUTO_TEST_RESPONSE" when unset) unless the
question text **or the support text** contains, case-insensitively, some key
of `text.byKeyword`; the first matching key in the keyword map's iteration
order wins. -/
theorem chooseTextByRuleset_spec (s : QuestionState) (rs : Option RulesetConfig) :
    ((∀ kv ∈ ((rs.bind RulesetConfig.text).bind TextRule.byKeyword).getD [],
        strContains (lowerStr (s.questionText ++ " " ++ String.intercalate " " s.supportText))
          (lowerStr kv.1) = false) →
      chooseTextByRuleset s rs
        = ((rs.bind RulesetConfig.text).bind TextRule.default).getD "AUTO_TEST_RESPONSE")
    ∧ (∀ pre kv post,
        ((rs.bind RulesetConfig.text).bind TextRule.byKeyword).getD [] = pre ++ kv :: post →
        strContains (lowerStr (s.questionText ++ " " ++ String.intercalate " " s.supportText))
          (lowerStr kv.1) = true →
        (∀ kv2 ∈ pre,
          strContains (lowerStr (s.questionText ++ " " ++ String.intercalate " " s.supportText))
            (lowerStr kv2.1) = false) →
        chooseTextByRuleset s rs = kv.2) := by
  constructor
  · intro hmiss
    have hfind :
        (((rs.bind RulesetConfig.text).bind TextRule.byKeyword).getD []).find?
            (fun kv => strContains
              (lowerStr (s.questionText ++ " " ++ String.intercalate " " s.supportText))
              (lowerStr kv.1)) = none := by
      rw [List.find?_eq_none]
      intro kv hkv
      simp [hmiss kv hkv]
    simp only [chooseTextByRuleset, hfind]
  · intro pre kv post hsplit hhit hmiss
    have hfind :
        (((rs.bind RulesetConfig.text).bind TextRule.byKeyword).getD []).find?
            (fun kv => strContains
              (lowerStr (s.questionText ++ " " ++ String.intercalate " " s.supportText))
              (lowerStr kv.1)) = some kv := by
      rw [hsplit]
      exact find?_of_prefix_misses _ pre post kv hhit (fun x hx => hmiss x hx)
    simp only [chooseTextByRuleset, hfind]

def c9WitnessState : QuestionState :=
  { questionText := "Please give your Email address", supportText := []
    inputType := InputType.text, options := [], filledValue := ""
    navigationButtons := [], progress := none, visibleInputCount := 1
    url := "https://a.example" }

def c9WitnessRuleset : RulesetConfig :=
  { singleSelect := none, multiSelect := none
    text := some { default := some "N/A"
                   byKeyword := some [("phone", "555"), ("email", "a@b.com")] } }

theorem chooseTextByRuleset_spec_witness :
    chooseTextByRuleset c9WitnessState (some c9WitnessRuleset) = "a@b.com"
      ∧ chooseTextByRuleset c9State (some c9Ruleset) = "a@b.com" :=
  ⟨(chooseTextByRuleset_spec c9WitnessState (some c9WitnessRuleset)).2
      [("phone", "555")] ("email", "a@b.com") [] rfl (by decide) (by decide),
    (chooseTextByRuleset_spec c9State (some c9Ruleset)).2
      [] ("email", "a@b.com") [] rfl (by decide) (by decide)⟩

def c8State : QuestionState :=
  { questionText := "Q", supportText := [], inputType := InputType.multi_select
    options := [{ label := "A", selected := false }, { label := "A", selected := false }]
    filledValue := "", navigationButtons := [], progress := none
    visibleInputCount := 2, url := "https://a.example" }

def c8Ruleset : RulesetConfig :=
  { singleSelect := none
    multiSelect := some { mode := MultiSelectMode.random_n, n := some 2 }
    text := none }

/-- C8 counterexample: with a duplicated option label, `random_n` returns the
same label twice — the selection is not pairwise distinct for every option
list. -/
theorem deterministicSelection_random_n_duplicates :
    c8State.inputType = InputType.multi_select
      ∧ c8Ruleset.multiSelect = some { mode := MultiSelectMode.random_n, n := some 2 }
      ∧ deterministicSelection c8State AnswerStrategy.ruleset (some c8Ruleset) "r" = ["A", "A"]
      ∧ ¬ (deterministicSelection c8State AnswerStrategy.ruleset (some c8Ruleset) "r").Nodup :=
  ⟨rfl, rfl, by decide, by decide⟩

theorem randomNLoop_succ (runId questionText : String) (n fuel : Nat)
    (chosen result : List String) :
    randomNLoop runId questionText n (fuel + 1) chosen result
      = if 0 < chosen.length ∧ result.length < n then
          (if chosen.getD (seededIndex (randomNSeed runId questionText result.length)
                chosen.length) "" ≠ "" then
            randomNLoop runId questionText n fuel
              (chosen.eraseIdx (seededIndex (randomNSeed runId questionText result.length)
                chosen.length))
              (result ++ [chosen.getD (seededIndex (randomNSeed runId questionText result.length)
                chosen.length) ""])
          else
            randomNLoop runId questionText n fuel
              (chosen.eraseIdx (seededIndex (randomNSeed runId questionText result.length)
                chosen.length))
              result)
        else result := rfl

/-- Loop invariant of the `random_n` selection loop: with enough fuel, a pool
of non-empty pairwise-distinct labels disjoint from the accumulator, and room
in the accumulator, the loop output stays duplicate-free, grows to exactly
`min n (result + pool)` elements, and only ever contains accumulator or pool
elements. -/
theorem randomNLoop_spec (runId questionText : String) (n : Nat) :
    ∀ (fuel : Nat) (chosen result : List String),
      chosen.length ≤ fuel →
      (∀ l ∈ chosen, l ≠ "") →
      (result ++ chosen).Nodup →
      result.length ≤ n →
      ((randomNLoop runId questionText n fuel chosen result).Nodup
        ∧ (randomNLoop runId questionText n fuel chosen result).length
            = min n (result.length + chosen.length)
        ∧ ∀ x ∈ randomNLoop runId questionText n fuel chosen result, x ∈ result ++ chosen) := by
  intro fuel
  induction fuel with
  | zero =>
    intro chosen result hlen hne hnodup hr
    have hchosen : chosen = [] := List.eq_nil_of_length_eq_zero (Nat.le_zero.mp hlen)
    subst hchosen
    refine ⟨?_, ?_, ?_⟩
    · simpa [randomNLoop] using hnodup.of_append_left
    · simp [randomNLoop, Nat.min_eq_right hr]
    · intro x hx
      simp only [randomNLoop] at hx
      exact List.mem_append_left _ hx
  | succ fuel ih =>
    intro chosen result hlen hne hnodup hr
    by_cases hc : 0 < chosen.length ∧ result.length < n
    · obtain ⟨hpos, hrn⟩ := hc
      rw [randomNLoop_succ, if_pos ⟨hpos, hrn⟩]
      set idx := seededIndex (randomNSeed runId questionText result.length) chosen.length
        with hidxdef
      have hidx : idx < chosen.length := seededIndex_lt _ _ hpos
      have hget : chosen.getD idx "" = chosen[idx] := by
        rw [List.getD_eq_getElem?_getD, List.getElem?_eq_getElem hidx]
        rfl
      have hmemlab : chosen[idx] ∈ chosen := List.getElem_mem hidx
      have hlabne : chosen.getD idx "" ≠ "" := by
        rw [hget]
        exact hne _ hmemlab
      rw [if_pos hlabne, hget]
      have hsplit : chosen = chosen.take idx ++ chosen[idx] :: chosen.drop (idx + 1) := by
        conv_lhs => rw [← List.take_append_drop idx chosen]
        rw [List.drop_eq_getElem_cons hidx]
      have hperm : List.Perm chosen (chosen[idx] :: chosen.eraseIdx idx) := by
        rw [List.eraseIdx_eq_take_drop_succ]
        conv_lhs => rw [hsplit]
        exact List.perm_middle
      have h1 : (chosen.eraseIdx idx).length ≤ fuel := by
        rw [List.length_eraseIdx_of_lt hidx]
        omega
      have h2 : ∀ l ∈ chosen.eraseIdx idx, l ≠ "" :=
        fun l hl => hne l (List.eraseIdx_subset _ _ hl)
      have hp2 : List.Perm (result ++ chosen)
          ((result ++ [chosen[idx]]) ++ chosen.eraseIdx idx) := by
        have ha : List.Perm (result ++ chosen)
            (result ++ (chosen[idx] :: chosen.eraseIdx idx)) :=
          List.Perm.append_left _ hperm
        have hb : result ++ (chosen[idx] :: chosen.eraseIdx idx)
            = (result ++ [chosen[idx]]) ++ chosen.eraseIdx idx := by simp
        rw [hb] at ha
        exact ha
      have h3 : ((result ++ [chosen[idx]]) ++ chosen.eraseIdx idx).Nodup := hp2.nodup hnodup
      have h4 : (result ++ [chosen[idx]]).length ≤ n := by
        simp only [List.length_append, List.length_cons, List.length_nil]
        omega
      obtain ⟨ihn, ihl, ihs⟩ := ih (chosen.eraseIdx idx) (result ++ [chosen[idx]]) h1 h2 h3 h4
      refine ⟨ihn, ?_, ?_⟩
      · rw [ihl]
        have harith : (result ++ [chosen[idx]]).length + (chosen.eraseIdx idx).length
            = result.length + chosen.length := by
          rw [List.length_eraseIdx_of_lt hidx]
          simp only [List.length_append, List.length_cons, List.length_nil]
          omega
        rw [harith]
      · intro x hx
        have hx2 := ihs x hx
        rcases List.mem_append.mp hx2 with h | h
        · rcases List.mem_append.mp h with h | h
          · exact List.mem_append_left _ h
          · have : x = chosen[idx] := by simpa using h
            subst this
            exact List.mem_append_right _ hmemlab
        · exact List.mem_append_right _ (List.eraseIdx_subset _ _ h)
    · rw [randomNLoop_succ, if_neg hc]
      refine ⟨hnodup.of_append_left, ?_, fun x hx => List.mem_append_left _ hx⟩
      rcases not_and_or.mp hc with h | h
      · have hz : chosen.length = 0 := Nat.eq_zero_of_not_pos h
        rw [hz, Nat.add_zero, Nat.min_eq_right hr]
      · have hz : result.length = n := le_antisymm hr (Nat.le_of_not_lt h)
        rw [hz]
        symm
        apply Nat.min_eq_left
        omega

/-- C8 (amended): for option lists with pairwise-distinct, non-empty labels,
`random_n` returns pairwise-distinct labels drawn from the options, exactly
`min` of the effective count `max 1 (n, default 2)` and the number of
options; `all` returns every option label. -/
theorem deterministicSelection_random_n_spec (s : QuestionState) (rs rsAll : RulesetConfig)
    (cfg cfgAll : MultiSelectRule) (runId : String)
    (hmulti : s.inputType = InputType.multi_select)
    (hcfg : rs.multiSelect = some cfg)
    (hmode : cfg.mode = MultiSelectMode.random_n)
    (hcfgA : rsAll.multiSelect = some cfgAll)
    (hmodeA : cfgAll.mode = MultiSelectMode.all)
    (hnodup : (s.options.map (·.label)).Nodup)
    (hne : ∀ l ∈ s.options.map (·.label), l ≠ "") :
    ((deterministicSelection s AnswerStrategy.ruleset (some rs) runId).Nodup
      ∧ (deterministicSelection s AnswerStrategy.ruleset (some rs) runId).length
          = min (Nat.max 1 (cfg.n.getD 2)) s.options.length
      ∧ ∀ x ∈ deterministicSelection s AnswerStrategy.ruleset (some rs) runId,
          x ∈ s.options.map (·.label))
    ∧ deterministicSelection s AnswerStrategy.ruleset (some rsAll) runId
        = s.options.map (·.label) := by
  by_cases h0 : (s.options.map (·.label)).length = 0
  · have hnil : s.options = [] := by
      simpa [List.length_eq_zero, List.map_eq_nil_iff] using h0
    refine ⟨?_, ?_⟩ <;> simp [deterministicSelection, h0, hnil]
  · have hnil : s.options ≠ [] := fun hn => h0 (by simp [hn])
    constructor
    · have hexp : deterministicSelection s AnswerStrategy.ruleset (some rs) runId
        = randomNLoop runId s.questionText (Nat.max 1 (cfg.n.getD 2))
            (s.options.map (·.label)).length (s.options.map (·.label)) [] := by
        simp [deterministicSelection, h0, hnil, hmulti, hcfg, hmode]
      rw [hexp]
      obtain ⟨hn, hl, hs⟩ := randomNLoop_spec runId s.questionText
        (Nat.max 1 (cfg.n.getD 2)) (s.options.map (·.label)).length
        (s.options.map (·.label)) [] (le_refl _) hne (by simpa using hnodup) (by simp)
      refine ⟨hn, ?_, fun x hx => by simpa using hs x hx⟩
      rw [hl]
      simp [List.length_map]
    · simp [deterministicSelection, h0, hmulti, hcfgA, hmodeA]

def c8WitnessState : QuestionState :=
  { questionText := "Pick some", supportText := [], inputType := InputType.multi_select
    options := [{ label := "A", selected := false }, { label := "B", selected := false },
                { label := "C", selected := false }]
    filledValue := "", navigationButtons := [], progress := none
    visibleInputCount := 3, url := "https://a.example" }

def c8WitnessRuleset : RulesetConfig :=
  { singleSelect := none
    multiSelect := some { mode := MultiSelectMode.random_n, n := some 2 }
    text := none }

def c8WitnessRulesetAll : RulesetConfig :=
  { singleSelect := none
    multiSelect := some { mode := MultiSelectMode.all, n := none }
    text := none }

theorem deterministicSelection_random_n_spec_witness :
    ((deterministicSelection c8WitnessState AnswerStrategy.ruleset (some c8WitnessRuleset) "r").Nodup
      ∧ (deterministicSelection c8WitnessState AnswerStrategy.ruleset (some c8WitnessRuleset) "r").length
          = min (Nat.max 1 ((some 2 : Option Nat).getD 2)) c8WitnessState.options.length
      ∧ ∀ x ∈ deterministicSelection c8WitnessState AnswerStrategy.ruleset (some c8WitnessRuleset) "r",
          x ∈ c8WitnessState.options.map (·.label))
    ∧ deterministicSelection c8WitnessState AnswerStrategy.ruleset (some c8WitnessRulesetAll) "r"
        = c8WitnessState.options.map (·.label) :=
  deterministicSelection_random_n_spec c8WitnessState c8WitnessRuleset c8WitnessRulesetAll
    { mode := MultiSelectMode.random_n, n := some 2 }
    { mode := MultiSelectMode.all, n := none } "r"
    rfl rfl rfl rfl rfl (by decide) (by decide)

def c1State : QuestionState :=
  { questionText := "Q1", supportText := [], inputType := InputType.single_select
    options := [{ label := "Yes", selected := false }]
    filledValue := "", navigationButtons := ["Submit"], progress := none
    visibleInputCount := 1, url := "https://a.example" }

def c1SubmitDecision : Decision :=
  { action := DecisionAction.click_submit, selections := [], text := ""
    assertions := ["done"] }

def c1Exec : ExecOutcome :=
  { actionSucceeded := true, progressed := false, afterState := c1State
    assertionsPassed := [], assertionsFailed := ["done"] }

def c1Env : Nat → StepCtx := fun _ =>
  { state := c1State, externalHostExit := false, decision := c1SubmitDecision
    exec := c1Exec }

/-- C1 counterexample: a run in which every executed step leaves the
fingerprint unchanged and fails an assertion, but whose decision is
`click_submit`: the engine terminates with status `success` after a single
non-progressed step, not `blocked` after two. -/
theorem stepLoop_stagnation_counterexample :
    stateFingerprint (c1Env 1).exec.afterState = stateFingerprint (c1Env 1).state
      ∧ (c1Env 1).exec.assertionsFailed ≠ []
      ∧ (runSurveySteps c1Env true 40).status = RunStatus.success
      ∧ (runSurveySteps c1Env true 40).steps.map StepResult.progressed = [false] :=
  ⟨rfl, by decide, by decide, by decide⟩

/-- C1 (amended): in a run whose steps always fail at least one assertion,
provided additionally that no decision is `cannot_proceed` or `click_submit`,
`completeSurvey` is set, no observed state (before or after a step) carries
completion text, the external-host exit never fires and `maxSteps ≥ 2`, the
engine terminates `blocked` ("cannot progress after repeated attempts")
after exactly 2 non-progressed steps — in particular never iterating past
`maxSteps`.  (No hypothesis on the fingerprints is even needed: failed
assertions alone force "no progress", line 401.) -/
theorem stepLoop_stagnation (env : Nat → StepCtx) (maxSteps : Nat)
    (hms : 2 ≤ maxSteps)
    (hcomp : ∀ k, isCompletionLikely (env k).state = false)
    (hhost : ∀ k, (env k).externalHostExit = false)
    (hact : ∀ k, (env k).decision.action ≠ DecisionAction.cannot_proceed
              ∧ (env k).decision.action ≠ DecisionAction.click_submit)
    (hfail : ∀ k, (env k).exec.assertionsFailed ≠ [])
    (hafter : ∀ k, isCompletionLikely (env k).exec.afterState = false) :
    (runSurveySteps env true maxSteps).status = RunStatus.blocked
      ∧ (runSurveySteps env true maxSteps).message
          = "Runner cannot progress after repeated attempts."
      ∧ (runSurveySteps env true maxSteps).steps.map StepResult.progressed
          = [false, false] := by
  obtain ⟨m, rfl⟩ : ∃ m, maxSteps = m + 2 := ⟨maxSteps - 2, by omega⟩
  have hact1 : ∀ k, ¬ (env k).decision.action = DecisionAction.cannot_proceed :=
    fun k => (hact k).1
  have hact2 : ∀ k, ¬ (env k).decision.action = DecisionAction.click_submit :=
    fun k => (hact k).2
  have hmp : ∀ k, markProgressed (env k).exec.progressed (stateFingerprint (env k).state)
      (stateFingerprint (env k).exec.afterState) (env k).exec.assertionsFailed = false := by
    intro k
    unfold markProgressed
    rw [if_pos (List.length_pos.mpr (hfail k))]
  refine ⟨?_, ?_, ?_⟩ <;>
    simp [runSurveySteps, stepLoop, hcomp, hhost, hact1, hact2, hafter, hmp,
      (show (1 : Nat) ≠ m + 2 by omega)]

def c1WitnessEnv : Nat → StepCtx := fun _ =>
  { state := c1State, externalHostExit := false
    decision := { action := DecisionAction.click_next, selections := [], text := ""
                  assertions := ["continue"] }
    exec := { actionSucceeded := true, progressed := false, afterState := c1State
              assertionsPassed := [], assertionsFailed := ["continue"] } }

theorem stepLoop_stagnation_witness :
    (runSurveySteps c1WitnessEnv true 40).status = RunStatus.blocked
      ∧ (runSurveySteps c1WitnessEnv true 40).message
          = "Runner cannot progress after repeated attempts."
      ∧ (runSurveySteps c1WitnessEnv true 40).steps.map StepResult.progressed
          = [false, false] :=
  stepLoop_stagnation c1WitnessEnv 40 (by omega)
    (fun _ => rfl) (fun _ => rfl)
    (fun _ => ⟨fun h => DecisionAction.noConfusion h, fun h => DecisionAction.noConfusion h⟩)
    (fun _ => fun h => List.noConfusion h) (fun _ => rfl)

end Verdant
